import Mathlib

/-!
Verification of the native point library `libJNIPoint.c`.

The library defines a struct `Point` with two signed 32-bit `int` fields, a
by-value Euclidean `distance` function, a by-pointer variant `distance_ptrs`,
JNI entry points that allocate, free, read, write and measure points on the
unmanaged heap through `jlong` handles, and a JNI entry point that reads the
two points out of caller-supplied direct byte buffers.

Modelling choices:
* C `int` values are integers in `[-2^31, 2^31)`; every arithmetic step of
  the C code is wrapped with `wrap32`, modelling two's-complement wraparound
  modulo `2^32`.
* The `double` result of `sqrt` is modelled by `Real.sqrt` on `ℝ`; a call of
  `sqrt` on a negative argument returns NaN in C, modelled as `Option.none`.
  All radicands that occur are 32-bit integers, which convert to `double`
  exactly, and IEEE `sqrt` is correctly rounded, so the exact-value claims
  (`= 5.0`, `= 0`, symmetry, sign) transfer between `Real.sqrt` and the
  `double` computation.
* The unmanaged heap is a map from addresses (handles) to live points plus a
  fresh-address counter; dereferencing a dead handle is undefined behaviour
  in C, modelled as `Option.none`.
-/

/-- The C struct `Point`: two signed 32-bit `int` fields.  The fields are
modelled as unbounded integers; `Point.valid` states that both fit in a
signed 32-bit `int`. -/
structure Point where
  x : Int
  y : Int
deriving DecidableEq

/-- Both fields of the point are representable as signed 32-bit integers. -/
def Point.valid (p : Point) : Prop :=
  -(2 ^ 31) ≤ p.x ∧ p.x < 2 ^ 31 ∧ -(2 ^ 31) ≤ p.y ∧ p.y < 2 ^ 31

instance : DecidablePred Point.valid := fun p =>
  decidable_of_iff
    (-(2 ^ 31) ≤ p.x ∧ p.x < 2 ^ 31 ∧ -(2 ^ 31) ≤ p.y ∧ p.y < 2 ^ 31) Iff.rfl

/-- Reduce an integer into the range of a signed 32-bit `int`, modelling the
two's-complement wraparound of C `int` arithmetic. -/
def wrap32 (n : Int) : Int := (n + 2 ^ 31) % 2 ^ 32 - 2 ^ 31

/-- C's `abs` on `int`: the mathematical absolute value wrapped back into the
32-bit range (so that `abs(INT_MIN)` is `INT_MIN` again). -/
def cAbs (n : Int) : Int := wrap32 (Int.natAbs n)

/-- The `int` value the C `distance` function hands to `sqrt`:
`(xDist*xDist) + (yDist*yDist)` where `xDist = abs(p1.x - p2.x)` and
`yDist = abs(p1.y - p2.y)`, every operation performed in 32-bit `int`
arithmetic. -/
def distSq (p1 p2 : Point) : Int :=
  let xDist := cAbs (wrap32 (p1.x - p2.x))
  let yDist := cAbs (wrap32 (p1.y - p2.y))
  wrap32 (wrap32 (xDist * xDist) + wrap32 (yDist * yDist))

/-- The exported by-value C function `distance`.  The `int` radicand converts
to `double` exactly (every 32-bit `int` is exact in `double`), and `sqrt` is
modelled by `Real.sqrt`; `none` models the NaN that `sqrt` returns when
32-bit overflow has made the radicand negative. -/
noncomputable def distance (p1 p2 : Point) : Option ℝ :=
  if 0 ≤ distSq p1 p2 then some (Real.sqrt (distSq p1 p2)) else none

/-- The distance value exactly as the specification words it:
`sqrt((|x1−x2|)^2 + (|y1−y2|)^2)` returned as a 64-bit floating-point value,
with the absolute differences and their squares computed in 32-bit signed
integer arithmetic before conversion to double. -/
noncomputable def specDistance (p1 p2 : Point) : Option ℝ :=
  let dx := wrap32 |wrap32 (p1.x - p2.x)|
  let dy := wrap32 |wrap32 (p1.y - p2.y)|
  let r := wrap32 (wrap32 (dx ^ 2) + wrap32 (dy ^ 2))
  if 0 ≤ r then some (Real.sqrt r) else none

/-- The exact mathematical Euclidean distance of the two points, computed
without any fixed-width arithmetic, for comparison with the 32-bit result. -/
noncomputable def exactDistance (p1 p2 : Point) : ℝ :=
  Real.sqrt (((p1.x : ℝ) - p2.x) ^ 2 + ((p1.y : ℝ) - p2.y) ^ 2)

/-! ### The unmanaged heap and the JNI entry points -/

/-- The unmanaged heap the JNI entry points act on: a map from addresses
(the `jlong` handles, modelled as naturals) to the live points, together
with the next fresh address `malloc` will hand out. -/
structure NativeHeap where
  mem : Nat → Option Point
  next : Nat

/-- JNI entry point `JNIPoint.allocate`: `malloc` a new `Point` and return
its address as the opaque handle.  The freshly allocated memory is
uninitialized; the parameter `init` stands for whatever bits happen to be
there. -/
def Java_org_openjdk_bench_jdk_incubator_foreign_points_support_JNIPoint_allocate
    (s : NativeHeap) (init : Point) : Nat × NativeHeap :=
  (s.next, ⟨fun h => if h = s.next then some init else s.mem h, s.next + 1⟩)

/-- JNI entry point `JNIPoint.free`: release the point behind the handle.
Freeing a handle that is not live is undefined behaviour, modelled as
`none`. -/
def Java_org_openjdk_bench_jdk_incubator_foreign_points_support_JNIPoint_free
    (s : NativeHeap) (h : Nat) : Option NativeHeap :=
  (s.mem h).map fun _ => ⟨fun h2 => if h2 = h then none else s.mem h2, s.next⟩

/-- JNI entry point `JNIPoint.getX`: read the `x` field of the point behind
the handle.  Dereferencing a dead handle is undefined behaviour, modelled as
`none`. -/
def Java_org_openjdk_bench_jdk_incubator_foreign_points_support_JNIPoint_getX
    (s : NativeHeap) (h : Nat) : Option Int :=
  (s.mem h).map Point.x

/-- JNI entry point `JNIPoint.setX`: write `value` into the `x` field of the
point behind the handle. -/
def Java_org_openjdk_bench_jdk_incubator_foreign_points_support_JNIPoint_setX
    (s : NativeHeap) (h : Nat) (value : Int) : Option NativeHeap :=
  (s.mem h).map fun p =>
    ⟨fun h2 => if h2 = h then some ⟨value, p.y⟩ else s.mem h2, s.next⟩

/-- JNI entry point `JNIPoint.getY`: read the `y` field of the point behind
the handle. -/
def Java_org_openjdk_bench_jdk_incubator_foreign_points_support_JNIPoint_getY
    (s : NativeHeap) (h : Nat) : Option Int :=
  (s.mem h).map Point.y

/-- JNI entry point `JNIPoint.setY`: write `value` into the `y` field of the
point behind the handle. -/
def Java_org_openjdk_bench_jdk_incubator_foreign_points_support_JNIPoint_setY
    (s : NativeHeap) (h : Nat) (value : Int) : Option NativeHeap :=
  (s.mem h).map fun p =>
    ⟨fun h2 => if h2 = h then some ⟨p.x, value⟩ else s.mem h2, s.next⟩

/-- The exported C function `distance_ptrs`: dereference both pointers and
call `distance` by value.  The outer `none` models the undefined behaviour
of dereferencing a dead pointer; the inner option is `distance`'s own NaN
marker. -/
noncomputable def distance_ptrs (s : NativeHeap) (p1 p2 : Nat) :
    Option (Option ℝ) :=
  (s.mem p1).bind fun a => (s.mem p2).map fun b => distance a b

/-- JNI entry point `JNIPoint.distance`: cast the two `jlong` handles to
`Point*`, dereference them and call `distance` by value. -/
noncomputable def Java_org_openjdk_bench_jdk_incubator_foreign_points_support_JNIPoint_distance
    (s : NativeHeap) (h1 h2 : Nat) : Option (Option ℝ) :=
  (s.mem h1).bind fun a => (s.mem h2).map fun b => distance a b

/-! ### The buffer-based entry point -/

/-- Read the 32-bit signed integer stored at byte offset `i` of a
caller-supplied buffer, in the benchmark's native byte order (little
endian); `none` when the buffer is too short. -/
def readInt32 (buf : List Nat) (i : Nat) : Option Int :=
  (buf[i]?).bind fun b0 =>
  (buf[i + 1]?).bind fun b1 =>
  (buf[i + 2]?).bind fun b2 =>
  (buf[i + 3]?).map fun b3 =>
  wrap32 ((b0 : Int) + 256 * b1 + 256 ^ 2 * b2 + 256 ^ 3 * b3)

/-- View the first 8 bytes of a caller-supplied buffer as a `Point`: two
consecutive native-endian 32-bit integers in `x, y` order, exactly as the C
code's `Point*` cast of the buffer address reads them. -/
def readPoint (buf : List Nat) : Option Point :=
  (readInt32 buf 0).bind fun x => (readInt32 buf 4).map fun y => (⟨x, y⟩ : Point)

/-- JNI entry point `BBPoint.distance`: obtain the addresses of the two
direct buffers, view each as a `Point` and call `distance` by value. -/
noncomputable def Java_org_openjdk_bench_jdk_incubator_foreign_points_support_BBPoint_distance
    (b1 b2 : List Nat) : Option (Option ℝ) :=
  (readPoint b1).bind fun p1 => (readPoint b2).map fun p2 => distance p1 p2

/-! ### Concrete heaps used to instantiate the hypothesis-bearing theorems -/

/-- A concrete one-point heap: the point `(1, 2)` lives behind handle `0`. -/
def exampleHeap : NativeHeap :=
  ⟨fun h => if h = 0 then some ⟨1, 2⟩ else none, 1⟩

/-- The heap `exampleHeap` after `setX 0 7`. -/
def exampleHeapX7 : NativeHeap :=
  ⟨fun h => if h = 0 then some ⟨7, 2⟩ else exampleHeap.mem h, 1⟩

/-- The heap `exampleHeap` after `setY 0 9`. -/
def exampleHeapY9 : NativeHeap :=
  ⟨fun h => if h = 0 then some ⟨1, 9⟩ else exampleHeap.mem h, 1⟩

/-- A concrete two-point heap: `(0, 0)` behind handle `0` and `(3, 4)` behind
handle `1`. -/
def twoPointHeap : NativeHeap :=
  ⟨fun h => if h = 0 then some ⟨0, 0⟩ else if h = 1 then some ⟨3, 4⟩ else none, 2⟩

/-- A concrete two-point heap holding the same coordinates as the example
buffers: `(1, 1)` behind handle `0` and `(4, 5)` behind handle `1`. -/
def bufPointHeap : NativeHeap :=
  ⟨fun h => if h = 0 then some ⟨1, 1⟩ else if h = 1 then some ⟨4, 5⟩ else none, 2⟩

/-! ### Helper lemmas about 32-bit arithmetic -/

/-- The absolute 32-bit difference is the same in both orders, including the
wraparound cases. -/
lemma cAbs_wrap32_sub_comm (a b : Int) :
    cAbs (wrap32 (a - b)) = cAbs (wrap32 (b - a)) := by
  unfold cAbs wrap32
  omega

/-- The radicand is symmetric in its two points. -/
lemma distSq_comm (p1 p2 : Point) : distSq p1 p2 = distSq p2 p1 := by
  simp only [distSq]
  rw [cAbs_wrap32_sub_comm p1.x p2.x, cAbs_wrap32_sub_comm p1.y p2.y]

/-- The radicand of a point against itself is zero. -/
lemma distSq_self (p : Point) : distSq p p = 0 := by
  simp only [distSq, sub_self]
  decide

/-! ### Claim theorems for the by-value distance function -/

/-- C1: for every pair of 32-bit points, the by-value `distance` function
returns the 64-bit floating-point value `sqrt((|x1−x2|)^2 + (|y1−y2|)^2)`,
with the absolute differences and their squares computed in 32-bit signed
integer arithmetic before conversion to double. -/
theorem distance_matches_spec (p1 p2 : Point)
    (_h1 : p1.valid) (_h2 : p2.valid) :
    distance p1 p2 = specDistance p1 p2 := by
  simp only [distance, specDistance, distSq, cAbs, Int.abs_eq_natAbs, pow_two]

theorem distance_matches_spec_witness :
    Point.valid ⟨0, 0⟩ ∧ Point.valid ⟨3, 4⟩ ∧
      distance ⟨0, 0⟩ ⟨3, 4⟩ = specDistance ⟨0, 0⟩ ⟨3, 4⟩ :=
  ⟨by decide, by decide, distance_matches_spec ⟨0, 0⟩ ⟨3, 4⟩ (by decide) (by decide)⟩

/-- C2: for all 32-bit integer pairs, `distance` is symmetric:
`distance(A, B) = distance(B, A)`. -/
theorem distance_symm (p1 p2 : Point) (_h1 : p1.valid) (_h2 : p2.valid) :
    distance p1 p2 = distance p2 p1 := by
  unfold distance
  rw [distSq_comm]

theorem distance_symm_witness :
    Point.valid ⟨0, 0⟩ ∧ Point.valid ⟨3, 4⟩ ∧
      distance ⟨0, 0⟩ ⟨3, 4⟩ = distance ⟨3, 4⟩ ⟨0, 0⟩ :=
  ⟨by decide, by decide, distance_symm ⟨0, 0⟩ ⟨3, 4⟩ (by decide) (by decide)⟩

/-- C6: for every point `P`, `distance(P, P) = 0`. -/
theorem distance_self (p : Point) : distance p p = some 0 := by
  simp [distance, distSq_self]

/-- C7: `distance((0,0), (3,4)) = 5.0` exactly, and
`distance((-3,-4), (0,0)) = 5.0` as well: the absolute-value step makes the
signs of the coordinates irrelevant. -/
theorem distance_examples :
    distance ⟨0, 0⟩ ⟨3, 4⟩ = some 5 ∧ distance ⟨-3, -4⟩ ⟨0, 0⟩ = some 5 := by
  have h1 : distSq ⟨0, 0⟩ ⟨3, 4⟩ = 25 := by decide
  have h2 : distSq ⟨-3, -4⟩ ⟨0, 0⟩ = 25 := by decide
  have h5 : Real.sqrt (25 : ℝ) = 5 := by
    rw [show (25 : ℝ) = (5 : ℝ) ^ 2 by norm_num,
      Real.sqrt_sq (by norm_num : (0 : ℝ) ≤ 5)]
  constructor <;> simp [distance, h1, h2, h5]

/-- C8: the distance computation does not guard against 32-bit overflow:
there is a pair of valid 32-bit points whose absolute-difference
multiplication overflows the signed 32-bit range (wraparound modulo `2^32`),
and on which the returned value differs from the exact mathematical
Euclidean distance.  Witness: `(65536, 0)` and `(0, 0)`, where
`65536 * 65536 = 2^32` wraps to `0`, so the code returns `0.0` instead of
`65536.0`. -/
theorem distance_overflow_exists :
    ∃ p1 p2 : Point, p1.valid ∧ p2.valid ∧
      ¬(-(2 ^ 31) ≤ cAbs (wrap32 (p1.x - p2.x)) * cAbs (wrap32 (p1.x - p2.x)) ∧
          cAbs (wrap32 (p1.x - p2.x)) * cAbs (wrap32 (p1.x - p2.x)) < 2 ^ 31) ∧
      distance p1 p2 ≠ some (exactDistance p1 p2) := by
  refine ⟨⟨65536, 0⟩, ⟨0, 0⟩, by decide, by decide, by decide, ?_⟩
  have h0 : distSq ⟨65536, 0⟩ ⟨0, 0⟩ = 0 := by decide
  have hex : exactDistance ⟨65536, 0⟩ ⟨0, 0⟩ = 65536 := by
    unfold exactDistance
    rw [show (((65536 : Int) : ℝ) - ((0 : Int) : ℝ)) ^ 2 +
        (((0 : Int) : ℝ) - ((0 : Int) : ℝ)) ^ 2 = (65536 : ℝ) ^ 2 by norm_num,
      Real.sqrt_sq (by norm_num : (0 : ℝ) ≤ 65536)]
  simp [distance, h0, hex]

/-- C10 counterexample: the claim "the returned value is always ≥ 0" fails:
on the valid points `(46341, 0)` and `(0, 0)` the squared difference
`46341 * 46341` wraps to a negative `int`, `sqrt` receives a negative
argument and returns NaN, so no real number `r ≥ 0` is returned. -/
theorem distance_nan_counterexample :
    Point.valid ⟨46341, 0⟩ ∧ Point.valid ⟨0, 0⟩ ∧
      ¬∃ r : ℝ, distance ⟨46341, 0⟩ ⟨0, 0⟩ = some r ∧ 0 ≤ r := by
  refine ⟨by decide, by decide, ?_⟩
  have h : distSq ⟨46341, 0⟩ ⟨0, 0⟩ = -2147479015 := by decide
  simp [distance, h]

/-- C10 amended: whenever the distance function returns a numeric (non-NaN)
value, that value is nonnegative. -/
theorem distance_nonneg_of_some (p1 p2 : Point) (r : ℝ)
    (h : distance p1 p2 = some r) : 0 ≤ r := by
  unfold distance at h
  by_cases hc : 0 ≤ distSq p1 p2
  · rw [if_pos hc, Option.some_inj] at h
    exact h ▸ Real.sqrt_nonneg _
  · rw [if_neg hc] at h
    exact absurd h (Option.noConfusion)

theorem distance_nonneg_of_some_witness :
    0 ≤ Real.sqrt ((25 : ℤ) : ℝ) :=
  distance_nonneg_of_some ⟨0, 0⟩ ⟨3, 4⟩ (Real.sqrt ((25 : ℤ) : ℝ))
    (by simp [distance, show distSq ⟨0, 0⟩ ⟨3, 4⟩ = 25 from by decide])

/-! ### Claim theorems for the handle and buffer entry points -/

/-- C3: after `allocate()` yielding handle `h`, `setX(h, 7)` and `setY(h, 9)`,
a subsequent `getX(h)` returns `7` and `getY(h)` returns `9`, and
`release(h)` retires the handle; more generally, reading a field right after
writing it through the same live handle returns the value just written. -/
theorem alloc_set_get_roundtrip :
    (∀ (s : NativeHeap) (init : Point),
      ∃ s2 s3 s4 : NativeHeap,
        Java_org_openjdk_bench_jdk_incubator_foreign_points_support_JNIPoint_setX
            (Java_org_openjdk_bench_jdk_incubator_foreign_points_support_JNIPoint_allocate s init).2
            (Java_org_openjdk_bench_jdk_incubator_foreign_points_support_JNIPoint_allocate s init).1
            7 = some s2 ∧
        Java_org_openjdk_bench_jdk_incubator_foreign_points_support_JNIPoint_setY s2
            (Java_org_openjdk_bench_jdk_incubator_foreign_points_support_JNIPoint_allocate s init).1
            9 = some s3 ∧
        Java_org_openjdk_bench_jdk_incubator_foreign_points_support_JNIPoint_getX s3
            (Java_org_openjdk_bench_jdk_incubator_foreign_points_support_JNIPoint_allocate s init).1
            = some 7 ∧
        Java_org_openjdk_bench_jdk_incubator_foreign_points_support_JNIPoint_getY s3
            (Java_org_openjdk_bench_jdk_incubator_foreign_points_support_JNIPoint_allocate s init).1
            = some 9 ∧
        Java_org_openjdk_bench_jdk_incubator_foreign_points_support_JNIPoint_free s3
            (Java_org_openjdk_bench_jdk_incubator_foreign_points_support_JNIPoint_allocate s init).1
            = some s4 ∧
        Java_org_openjdk_bench_jdk_incubator_foreign_points_support_JNIPoint_getX s4
            (Java_org_openjdk_bench_jdk_incubator_foreign_points_support_JNIPoint_allocate s init).1
            = none) ∧
    (∀ (s : NativeHeap) (h : Nat) (v : Int) (s2 : NativeHeap),
        Java_org_openjdk_bench_jdk_incubator_foreign_points_support_JNIPoint_setX s h v = some s2 →
        Java_org_openjdk_bench_jdk_incubator_foreign_points_support_JNIPoint_getX s2 h = some v) ∧
    (∀ (s : NativeHeap) (h : Nat) (v : Int) (s2 : NativeHeap),
        Java_org_openjdk_bench_jdk_incubator_foreign_points_support_JNIPoint_setY s h v = some s2 →
        Java_org_openjdk_bench_jdk_incubator_foreign_points_support_JNIPoint_getY s2 h = some v) := by
  refine ⟨fun s init => ?_, fun s h v s2 hset => ?_, fun s h v s2 hset => ?_⟩
  · simp [Java_org_openjdk_bench_jdk_incubator_foreign_points_support_JNIPoint_allocate,
      Java_org_openjdk_bench_jdk_incubator_foreign_points_support_JNIPoint_setX,
      Java_org_openjdk_bench_jdk_incubator_foreign_points_support_JNIPoint_setY,
      Java_org_openjdk_bench_jdk_incubator_foreign_points_support_JNIPoint_getX,
      Java_org_openjdk_bench_jdk_incubator_foreign_points_support_JNIPoint_getY,
      Java_org_openjdk_bench_jdk_incubator_foreign_points_support_JNIPoint_free]
  · rcases hmem : s.mem h with _ | p
    · simp [Java_org_openjdk_bench_jdk_incubator_foreign_points_support_JNIPoint_setX,
        hmem] at hset
    · simp [Java_org_openjdk_bench_jdk_incubator_foreign_points_support_JNIPoint_setX,
        hmem] at hset
      simp [Java_org_openjdk_bench_jdk_incubator_foreign_points_support_JNIPoint_getX,
        ← hset]
  · rcases hmem : s.mem h with _ | p
    · simp [Java_org_openjdk_bench_jdk_incubator_foreign_points_support_JNIPoint_setY,
        hmem] at hset
    · simp [Java_org_openjdk_bench_jdk_incubator_foreign_points_support_JNIPoint_setY,
        hmem] at hset
      simp [Java_org_openjdk_bench_jdk_incubator_foreign_points_support_JNIPoint_getY,
        ← hset]

theorem alloc_set_get_roundtrip_witness :
    Java_org_openjdk_bench_jdk_incubator_foreign_points_support_JNIPoint_getX
      exampleHeapX7 0 = some 7 ∧
    Java_org_openjdk_bench_jdk_incubator_foreign_points_support_JNIPoint_getY
      exampleHeapY9 0 = some 9 :=
  ⟨alloc_set_get_roundtrip.2.1 exampleHeap 0 7 exampleHeapX7 rfl,
   alloc_set_get_roundtrip.2.2 exampleHeap 0 9 exampleHeapY9 rfl⟩

/-- C9: `setX(h, v)` stores `v` in the `x` field while keeping the `y` field
of the same point, and leaves every other handle's point untouched;
symmetrically for `setY(h, v)`. -/
theorem set_frame :
    (∀ (s : NativeHeap) (h : Nat) (v : Int) (s2 : NativeHeap),
        Java_org_openjdk_bench_jdk_incubator_foreign_points_support_JNIPoint_setX s h v = some s2 →
          (∃ p, s.mem h = some p ∧ s2.mem h = some ⟨v, p.y⟩) ∧
          ∀ h2, h2 ≠ h → s2.mem h2 = s.mem h2) ∧
    (∀ (s : NativeHeap) (h : Nat) (v : Int) (s2 : NativeHeap),
        Java_org_openjdk_bench_jdk_incubator_foreign_points_support_JNIPoint_setY s h v = some s2 →
          (∃ p, s.mem h = some p ∧ s2.mem h = some ⟨p.x, v⟩) ∧
          ∀ h2, h2 ≠ h → s2.mem h2 = s.mem h2) := by
  refine ⟨fun s h v s2 hset => ?_, fun s h v s2 hset => ?_⟩
  · rcases hmem : s.mem h with _ | p
    · simp [Java_org_openjdk_bench_jdk_incubator_foreign_points_support_JNIPoint_setX,
        hmem] at hset
    · simp [Java_org_openjdk_bench_jdk_incubator_foreign_points_support_JNIPoint_setX,
        hmem] at hset
      refine ⟨⟨p, rfl, ?_⟩, fun h2 hne => ?_⟩
      · simp [← hset]
      · simp [← hset, hne]
  · rcases hmem : s.mem h with _ | p
    · simp [Java_org_openjdk_bench_jdk_incubator_foreign_points_support_JNIPoint_setY,
        hmem] at hset
    · simp [Java_org_openjdk_bench_jdk_incubator_foreign_points_support_JNIPoint_setY,
        hmem] at hset
      refine ⟨⟨p, rfl, ?_⟩, fun h2 hne => ?_⟩
      · simp [← hset]
      · simp [← hset, hne]

theorem set_frame_witness :
    exampleHeapX7.mem 5 = exampleHeap.mem 5 ∧
    exampleHeapY9.mem 5 = exampleHeap.mem 5 :=
  ⟨(set_frame.1 exampleHeap 0 7 exampleHeapX7 rfl).2 5 (by decide),
   (set_frame.2 exampleHeap 0 9 exampleHeapY9 rfl).2 5 (by decide)⟩

/-- C4: the three callable forms of the distance computation agree: on a heap
whose handles `h1`, `h2` hold points with the same field values as `p1`,
`p2`, both the by-pointer form and the handle-based JNI entry point return
exactly the by-value `distance p1 p2`. -/
theorem distance_forms_agree (s : NativeHeap) (h1 h2 : Nat) (p1 p2 : Point)
    (hm1 : s.mem h1 = some p1) (hm2 : s.mem h2 = some p2) :
    distance_ptrs s h1 h2 = some (distance p1 p2) ∧
    Java_org_openjdk_bench_jdk_incubator_foreign_points_support_JNIPoint_distance
      s h1 h2 = some (distance p1 p2) := by
  constructor <;>
    simp [distance_ptrs,
      Java_org_openjdk_bench_jdk_incubator_foreign_points_support_JNIPoint_distance,
      hm1, hm2]

theorem distance_forms_agree_witness :
    distance_ptrs twoPointHeap 0 1 = some (distance ⟨0, 0⟩ ⟨3, 4⟩) ∧
    Java_org_openjdk_bench_jdk_incubator_foreign_points_support_JNIPoint_distance
      twoPointHeap 0 1 = some (distance ⟨0, 0⟩ ⟨3, 4⟩) :=
  distance_forms_agree twoPointHeap 0 1 ⟨0, 0⟩ ⟨3, 4⟩ rfl rfl

/-- C5: the buffer-based entry point returns exactly `5.0` on a buffer
encoding `(1, 1)` and one encoding `(4, 5)` as two consecutive native-endian
32-bit integers, and for every pair of decodable buffers its result equals
the handle-based distance computation on points holding the same
coordinates. -/
theorem buffer_distance_correct :
    Java_org_openjdk_bench_jdk_incubator_foreign_points_support_BBPoint_distance
        [1, 0, 0, 0, 1, 0, 0, 0] [4, 0, 0, 0, 5, 0, 0, 0] = some (some 5) ∧
    ∀ (b1 b2 : List Nat) (p1 p2 : Point) (s : NativeHeap) (h1 h2 : Nat),
      readPoint b1 = some p1 → readPoint b2 = some p2 →
      s.mem h1 = some p1 → s.mem h2 = some p2 →
      Java_org_openjdk_bench_jdk_incubator_foreign_points_support_BBPoint_distance
          b1 b2 =
        Java_org_openjdk_bench_jdk_incubator_foreign_points_support_JNIPoint_distance
          s h1 h2 := by
  constructor
  · have hr1 : readPoint [1, 0, 0, 0, 1, 0, 0, 0] = some ⟨1, 1⟩ := by decide
    have hr2 : readPoint [4, 0, 0, 0, 5, 0, 0, 0] = some ⟨4, 5⟩ := by decide
    have h25 : distSq ⟨1, 1⟩ ⟨4, 5⟩ = 25 := by decide
    have h5 : Real.sqrt (25 : ℝ) = 5 := by
      rw [show (25 : ℝ) = (5 : ℝ) ^ 2 by norm_num,
        Real.sqrt_sq (by norm_num : (0 : ℝ) ≤ 5)]
    simp [Java_org_openjdk_bench_jdk_incubator_foreign_points_support_BBPoint_distance,
      hr1, hr2, distance, h25, h5]
  · intro b1 b2 p1 p2 s h1 h2 hb1 hb2 hm1 hm2
    simp [Java_org_openjdk_bench_jdk_incubator_foreign_points_support_BBPoint_distance,
      Java_org_openjdk_bench_jdk_incubator_foreign_points_support_JNIPoint_distance,
      hb1, hb2, hm1, hm2]

theorem buffer_distance_correct_witness :
    Java_org_openjdk_bench_jdk_incubator_foreign_points_support_BBPoint_distance
        [1, 0, 0, 0, 1, 0, 0, 0] [4, 0, 0, 0, 5, 0, 0, 0] =
      Java_org_openjdk_bench_jdk_incubator_foreign_points_support_JNIPoint_distance
        bufPointHeap 0 1 :=
  buffer_distance_correct.2 [1, 0, 0, 0, 1, 0, 0, 0] [4, 0, 0, 0, 5, 0, 0, 0]
    ⟨1, 1⟩ ⟨4, 5⟩ bufPointHeap 0 1 (by decide) (by decide) rfl rfl
